import Mathlib

/-!
Verification of the retry core of `handle-rate-limiting-js`.

The development shallowly embeds the retry-decision logic and the attempt
orchestration of `src/RateLimitingFetch.ts` and the standalone
`DefaultRetryDetector` (in the module holding the stats/detector code).
JavaScript numbers are modelled as exact rationals (`ℚ`); the one place
where `NaN` can arise in the embedded code — `parseInt` applied to a
malformed `Retry-After` header — is modelled explicitly with the `JNum`
type.  `Math.random()` draws are passed in as explicit arguments
(one rational per transport attempt), and the transport is a function
from the attempt index to the response it yields.
-/

/-- `minJitterMultiplier` constant (RateLimitingFetch.ts line 8). -/
def minJitterMultiplier : ℚ := 1

/-- Status constant (RateLimitingFetch.ts line 10). -/
def tooManyRequestsStatusCode : ℤ := 429

/-- Status constant (RateLimitingFetch.ts line 11). -/
def internalServerErrorStatusCode : ℤ := 500

/-- Status constant (RateLimitingFetch.ts line 12). -/
def serviceUnavailableStatusCode : ℤ := 503

/-- The options record (RateLimitingHandlingOptions.ts).  All fields are
TypeScript `number`s, modelled as exact rationals (floating-point rounding,
`NaN` and infinities for configuration values are not modelled). -/
structure RateLimitingHandlingOptions where
  maxRetries : ℚ
  maxRetryDelayMillis : ℚ
  backoffMultiplier : ℚ
  initialRetryDelayMillis : ℚ
  maxJitterMultiplier : ℚ
deriving DecidableEq, Repr

/-- `nonUiContextRateLimitingHandlingOptionsDefaults`
(RateLimitingHandlingOptions.ts): maxRetries 2, maxRetryDelayMillis 60000,
backoffMultiplier 2, initialRetryDelayMillis 5000, maxJitterMultiplier 1.3. -/
def nonUiContextRateLimitingHandlingOptionsDefaults : RateLimitingHandlingOptions :=
  { maxRetries := 2
    maxRetryDelayMillis := 60000
    backoffMultiplier := 2
    initialRetryDelayMillis := 5000
    maxJitterMultiplier := 13 / 10 }

/-- A JavaScript number that may be `NaN`.  Only the `Retry-After` parsing
path can produce `NaN` in the embedded code (JS `parseInt` returns `NaN`
on a string with no leading digits); every comparison with `NaN` is false
in JS, which the operations below reflect. -/
inductive JNum where
  | nan : JNum
  | num : ℚ → JNum
deriving DecidableEq, Repr

/-- Multiplication of a possibly-`NaN` number by a constant:
`c * NaN = NaN` in JS. -/
def JNum.mulConst (c : ℚ) : JNum → JNum
  | JNum.nan => JNum.nan
  | JNum.num q => JNum.num (c * q)

/-- The JS test `x > 0`: false for `NaN`. -/
def JNum.isPos : JNum → Bool
  | JNum.nan => false
  | JNum.num q => decide (0 < q)

/-- JavaScript `String.prototype.trim` (as called at
RateLimitingFetch.ts line 85): drops whitespace from both ends.  (JS trims
a slightly larger Unicode set than `Char.isWhitespace`; header values in
the claims are ASCII.) -/
def jsTrim (s : String) : String :=
  String.mk (((s.data.dropWhile Char.isWhitespace).reverse.dropWhile Char.isWhitespace).reverse)

/-- JavaScript `parseInt` (as called on the trimmed `Retry-After` value at
RateLimitingFetch.ts line 85): an optional sign followed by the longest
prefix of decimal digits; if there is no digit, the result is `NaN`.
`parseInt` never throws, so the `catch` block at lines 87–89 is
unreachable.  Radix-16 inference for `0x`-prefixed strings and
floating-point rounding of huge digit strings are not modelled; no claim
concerns such inputs. -/
def jsParseInt (s : String) : JNum :=
  let sign : ℤ := match s.data with
    | '-' :: _ => -1
    | _ => 1
  let rest : List Char := match s.data with
    | '-' :: t => t
    | '+' :: t => t
    | t => t
  let ds : List Char := rest.takeWhile Char.isDigit
  if ds.isEmpty then JNum.nan
  else JNum.num ((sign * (ds.foldl (fun a c => 10 * a + ((c.toNat : ℤ) - 48)) 0) : ℤ) : ℚ)

/-- The response surface the retry core reads: `response.status` and
`response.headers.get('Retry-After')` (`none` models both `null` and
`undefined`). -/
structure Resp where
  status : ℤ
  retryAfter : Option String
deriving DecidableEq, Repr

/-- JS truthiness of a `string | null | undefined` header value: `null`,
`undefined` and the empty string are falsy (the `if (retryAfterHeader)`
test at RateLimitingFetch.ts line 83). -/
def headerTruthy : Option String → Bool
  | none => false
  | some s => !(s == "")

/-- The retryable-status test (RateLimitingFetch.ts lines 73–76). -/
def responseNeedsRetry (statusCode : ℤ) : Bool :=
  statusCode == tooManyRequestsStatusCode ||
  statusCode == internalServerErrorStatusCode ||
  statusCode == serviceUnavailableStatusCode

/-- The unjittered retry delay (RateLimitingFetch.ts lines 81–96, and
identically DefaultRetryDetector lines 184–199): if the `Retry-After`
header is truthy, `1000 * parseInt(header.trim())` (possibly `NaN`);
otherwise the backoff branch — `min(backoffMultiplier * lastRetryDelayMillis,
maxRetryDelayMillis)` when `lastRetryDelayMillis > 0`, else
`initialRetryDelayMillis`. -/
def computeUnjitteredRetryDelayMillis (lastRetryDelayMillis : ℚ)
    (options : RateLimitingHandlingOptions) (retryAfterHeader : Option String) : JNum :=
  if headerTruthy retryAfterHeader then
    JNum.mulConst 1000 (jsParseInt (jsTrim (retryAfterHeader.getD "")))
  else if 0 < lastRetryDelayMillis then
    JNum.num (min (options.backoffMultiplier * lastRetryDelayMillis) options.maxRetryDelayMillis)
  else
    JNum.num options.initialRetryDelayMillis

/-- `_randomInRange(min, max)` (RateLimitingFetch.ts lines 143–145), with
the `Math.random()` draw passed in explicitly as `random ∈ [0, 1)`. -/
def randomInRange (random lo hi : ℚ) : ℚ := lo + random * (hi - lo)

/-- The `RetryInfo` record (RetryInfo.ts, re-exported by the package
index): the next remaining budget and the jittered delay. -/
structure RetryInfo where
  remainingRetries : ℚ
  retryDelayMillis : ℚ
deriving DecidableEq, Repr

/-- The retry decision inlined in `RateLimitingFetch._fetch`
(RateLimitingFetch.ts lines 72–114), extracted as a function of the
attempt state, the options, the response, and this attempt's
`Math.random()` draw.  `some info` means a retry is performed with
`info`'s budget and delay (the recursive call at line 111 passes
`remainintRetries - 1` and the jittered delay); `none` means the response
is returned to the caller. -/
def fetchRetryDecision (remainintRetries lastRetryDelayMillis : ℚ)
    (options : RateLimitingHandlingOptions) (response : Resp) (random : ℚ) :
    Option RetryInfo :=
  if responseNeedsRetry response.status then
    match computeUnjitteredRetryDelayMillis lastRetryDelayMillis options response.retryAfter with
    | JNum.num unjitteredRetryDelayMillis =>
      if 0 < remainintRetries ∧ 0 < unjitteredRetryDelayMillis then
        let jitterMultiplier := randomInRange random minJitterMultiplier options.maxJitterMultiplier
        some { remainingRetries := remainintRetries - 1,
               retryDelayMillis := unjitteredRetryDelayMillis * jitterMultiplier }
      else none
    | JNum.nan => none
  else none

/-- `DefaultRetryDetector.computeRetryInfo` (the detector class in the
stats/detector module, lines 173–214), embedded independently of
`fetchRetryDecision` with its whole body inline, again with the
`Math.random()` draw passed in explicitly. -/
def DefaultRetryDetector.computeRetryInfo (remainingRetries lastRetryDelayMillis : ℚ)
    (options : RateLimitingHandlingOptions) (response : Resp) (random : ℚ) :
    Option RetryInfo :=
  if responseNeedsRetry response.status then
    let unjitteredRetryDelayMillis : JNum :=
      if headerTruthy response.retryAfter then
        JNum.mulConst 1000 (jsParseInt (jsTrim (response.retryAfter.getD "")))
      else if 0 < lastRetryDelayMillis then
        JNum.num (min (options.backoffMultiplier * lastRetryDelayMillis) options.maxRetryDelayMillis)
      else
        JNum.num options.initialRetryDelayMillis
    match unjitteredRetryDelayMillis with
    | JNum.num u =>
      if 0 < remainingRetries ∧ 0 < u then
        some { remainingRetries := remainingRetries - 1,
               retryDelayMillis := u * randomInRange random minJitterMultiplier options.maxJitterMultiplier }
      else none
    | JNum.nan => none
  else none

/-- `_validateOptions` (RateLimitingFetch.ts lines 131–141); the three
checks in source order (the interpolated values in the source's error
messages are omitted). -/
def validateOptions (options : RateLimitingHandlingOptions) : Except String Unit :=
  if options.maxRetries < 0 then
    Except.error "Invalid RateLimitFetch options: maxRetries must be >= 0"
  else if options.maxRetryDelayMillis ≤ 0 then
    Except.error "Invalid RateLimitFetch options: maxRetryDelayMillis must be > 0"
  else if options.maxJitterMultiplier < minJitterMultiplier then
    Except.error "Invalid RateLimitFetch options: maxJitterMultiplier must be >= minJitterMultiplier"
  else Except.ok ()

/-- The `RateLimitingFetch` constructor (RateLimitingFetch.ts lines 24–27):
stores the options and validates them synchronously; a thrown validation
error is modelled as `Except.error`. -/
def RateLimitingFetch.construct (options : RateLimitingHandlingOptions) :
    Except String RateLimitingHandlingOptions :=
  match validateOptions options with
  | Except.ok _ => Except.ok options
  | Except.error e => Except.error e

/-- `RateLimitingFetch._fetch` (RateLimitingFetch.ts lines 68–121), the
recursive retry orchestrator, returning the response the caller receives.
The transport (`fetchImplementation.fetch`) is modelled as the function
`responses` from the attempt index to the response of that attempt, and
the per-attempt `Math.random()` draw as `rands`.  Statement-for-statement:
the retryable test, the unjittered delay, the `remainintRetries > 0 &&
unjittered > 0` guard, the jitter, and the recursive call with
`remainintRetries - 1` and the jittered delay mirror the source; the
stats-recorder and debug-log calls have no effect on the result.
Termination: the recursive call happens only under `0 < remainintRetries`
and decrements the budget by one, so `⌈remainintRetries⌉` decreases. -/
def rlFetch (options : RateLimitingHandlingOptions) (responses : ℕ → Resp) (rands : ℕ → ℚ)
    (k : ℕ) (remainintRetries lastRetryDelayMillis : ℚ) : Resp :=
  let response := responses k
  if responseNeedsRetry response.status then
    match computeUnjitteredRetryDelayMillis lastRetryDelayMillis options response.retryAfter with
    | JNum.num unjitteredRetryDelayMillis =>
      if h : 0 < remainintRetries ∧ 0 < unjitteredRetryDelayMillis then
        let jitterMultiplier := randomInRange (rands k) minJitterMultiplier options.maxJitterMultiplier
        let retryDelayMillis := unjitteredRetryDelayMillis * jitterMultiplier
        rlFetch options responses rands (k + 1) (remainintRetries - 1) retryDelayMillis
      else response
    | JNum.nan => response
  else response
termination_by (Int.ceil remainintRetries).toNat
decreasing_by
  have h1 : (0:ℤ) < Int.ceil remainintRetries := Int.ceil_pos.mpr h.1
  have h2 : Int.ceil (remainintRetries - 1) = Int.ceil remainintRetries - 1 :=
    Int.ceil_sub_one remainintRetries
  omega

/-- The same recursion as `rlFetch`, instrumented to return the list of
attempts: for each transport invocation, the response it produced and the
retry decision taken on it (`some info` = a retry with that budget and
delay followed; `none` = this response was returned to the caller). -/
def rlFetchAttempts (options : RateLimitingHandlingOptions) (responses : ℕ → Resp) (rands : ℕ → ℚ)
    (k : ℕ) (remainintRetries lastRetryDelayMillis : ℚ) : List (Resp × Option RetryInfo) :=
  let response := responses k
  if responseNeedsRetry response.status then
    match computeUnjitteredRetryDelayMillis lastRetryDelayMillis options response.retryAfter with
    | JNum.num unjitteredRetryDelayMillis =>
      if h : 0 < remainintRetries ∧ 0 < unjitteredRetryDelayMillis then
        let jitterMultiplier := randomInRange (rands k) minJitterMultiplier options.maxJitterMultiplier
        let retryDelayMillis := unjitteredRetryDelayMillis * jitterMultiplier
        (response, some { remainingRetries := remainintRetries - 1,
                          retryDelayMillis := retryDelayMillis }) ::
          rlFetchAttempts options responses rands (k + 1) (remainintRetries - 1) retryDelayMillis
      else [(response, none)]
    | JNum.nan => [(response, none)]
  else [(response, none)]
termination_by (Int.ceil remainintRetries).toNat
decreasing_by
  have h1 : (0:ℤ) < Int.ceil remainintRetries := Int.ceil_pos.mpr h.1
  have h2 : Int.ceil (remainintRetries - 1) = Int.ceil remainintRetries - 1 :=
    Int.ceil_sub_one remainintRetries
  omega

/-- `RateLimitingFetch.fetch` (RateLimitingFetch.ts lines 33–35): starts
`_fetch` with `remainintRetries = options.maxRetries` and
`lastRetryDelayMillis = 0`. -/
def RateLimitingFetch.fetch (options : RateLimitingHandlingOptions)
    (responses : ℕ → Resp) (rands : ℕ → ℚ) : Resp :=
  rlFetch options responses rands 0 options.maxRetries 0

/-- Events of the main async chain of one logical request.  `attempt k` is
the issuing of transport invocation `k`; `delayStarted d` is the call
`this._delay(d)` starting a `setTimeout` timer (line 106); `delayElapsed d`
is the resolution of that timer's promise; `logRetry d` is the stats
call at line 107. -/
inductive Ev where
  | attempt : ℕ → Ev
  | delayStarted : ℚ → Ev
  | delayElapsed : ℚ → Ev
  | logRetry : ℚ → Ev
deriving DecidableEq, Repr

/-- The events one attempt contributes to the main async chain, in source
statement order (RateLimitingFetch.ts lines 68–114): the attempt itself,
then — when a retry is decided — `this._delay(retryDelayMillis)` at line
106 and `statsRecorder.logRetry` at line 107 before the recursive call at
line 111.  The call to `_delay` is NOT awaited in the source, so only the
start of the timer is sequenced into the chain; the resolution of the
returned promise (`delayElapsed`) is never awaited before the next
attempt.  (Had line 106 read `await this._delay(retryDelayMillis)`, the
list for a retry would be `[attempt k, delayStarted d, delayElapsed d,
logRetry d]`.) -/
def attemptEvents (k : ℕ) (a : Resp × Option RetryInfo) : List Ev :=
  match a.2 with
  | some info => [Ev.attempt k, Ev.delayStarted info.retryDelayMillis,
                  Ev.logRetry info.retryDelayMillis]
  | none => [Ev.attempt k]

/-- Concatenates the per-attempt events of a run, numbering attempts from `k`. -/
def eventsOfAttempts : ℕ → List (Resp × Option RetryInfo) → List Ev
  | _, [] => []
  | k, a :: rest => attemptEvents k a ++ eventsOfAttempts (k + 1) rest

/-- The main-chain event trace of `_fetch` (see `attemptEvents` for the
treatment of the un-awaited `_delay` call). -/
def fetchEventTrace (options : RateLimitingHandlingOptions) (responses : ℕ → Resp)
    (rands : ℕ → ℚ) (k : ℕ) (remainintRetries lastRetryDelayMillis : ℚ) : List Ev :=
  eventsOfAttempts k (rlFetchAttempts options responses rands k remainintRetries lastRetryDelayMillis)

/-! ### Helper lemmas about the decision and the loop -/

/-- Inversion: a `some` decision implies a retryable status, a positive
budget, a positive (non-`NaN`) unjittered delay, and fixes both fields of
the produced `RetryInfo`. -/
theorem fetchRetryDecision_some_inv {rem last : ℚ} {o : RateLimitingHandlingOptions}
    {resp : Resp} {r : ℚ} {info : RetryInfo}
    (h : fetchRetryDecision rem last o resp r = some info) :
    responseNeedsRetry resp.status = true ∧ 0 < rem ∧
    ∃ u, computeUnjitteredRetryDelayMillis last o resp.retryAfter = JNum.num u ∧ 0 < u ∧
      info.remainingRetries = rem - 1 ∧
      info.retryDelayMillis = u * randomInRange r minJitterMultiplier o.maxJitterMultiplier := by
  unfold fetchRetryDecision at h
  by_cases hN : responseNeedsRetry resp.status = true
  · rw [if_pos hN] at h
    cases hU : computeUnjitteredRetryDelayMillis last o resp.retryAfter with
    | nan => rw [hU] at h; exact absurd h (by simp)
    | num u =>
      rw [hU] at h
      dsimp only at h
      by_cases hC : 0 < rem ∧ 0 < u
      · rw [if_pos hC] at h
        injection h with h2
        refine ⟨hN, hC.1, u, rfl, hC.2, ?_, ?_⟩
        · rw [← h2]
        · rw [← h2]
      · rw [if_neg hC] at h; exact absurd h (by simp)
  · rw [if_neg hN] at h; exact absurd h (by simp)

/-- With a non-positive budget the decision is always "no retry". -/
theorem fetchRetryDecision_none_of_nonpos {rem : ℚ} (last : ℚ)
    (o : RateLimitingHandlingOptions) (resp : Resp) (r : ℚ) (h : rem ≤ 0) :
    fetchRetryDecision rem last o resp r = none := by
  unfold fetchRetryDecision
  by_cases hN : responseNeedsRetry resp.status = true
  · rw [if_pos hN]
    cases hU : computeUnjitteredRetryDelayMillis last o resp.retryAfter with
    | nan => rfl
    | num u =>
      dsimp only
      have hC : ¬(0 < rem ∧ 0 < u) := fun hc => absurd hc.1 (not_lt.mpr h)
      rw [if_neg hC]
  · rw [if_neg hN]

/-- One step of `rlFetch` follows the decision of `fetchRetryDecision`:
this identifies the decision logic inlined in `_fetch` with the extracted
decision function. -/
theorem rlFetch_step (o : RateLimitingHandlingOptions) (rs : ℕ → Resp) (rd : ℕ → ℚ)
    (k : ℕ) (rem last : ℚ) :
    rlFetch o rs rd k rem last =
      match fetchRetryDecision rem last o (rs k) (rd k) with
      | some info => rlFetch o rs rd (k + 1) info.remainingRetries info.retryDelayMillis
      | none => rs k := by
  rw [rlFetch.eq_def]
  unfold fetchRetryDecision
  dsimp only
  by_cases hN : responseNeedsRetry (rs k).status = true
  · rw [if_pos hN, if_pos hN]
    cases hU : computeUnjitteredRetryDelayMillis last o (rs k).retryAfter with
    | nan => rfl
    | num u =>
      dsimp only
      by_cases hC : 0 < rem ∧ 0 < u
      · rw [dif_pos hC, if_pos hC]
      · rw [dif_neg hC, if_neg hC]
  · rw [if_neg hN, if_neg hN]

/-- One step of `rlFetchAttempts`, likewise. -/
theorem rlFetchAttempts_step (o : RateLimitingHandlingOptions) (rs : ℕ → Resp) (rd : ℕ → ℚ)
    (k : ℕ) (rem last : ℚ) :
    rlFetchAttempts o rs rd k rem last =
      match fetchRetryDecision rem last o (rs k) (rd k) with
      | some info => (rs k, some info) ::
          rlFetchAttempts o rs rd (k + 1) info.remainingRetries info.retryDelayMillis
      | none => [(rs k, none)] := by
  rw [rlFetchAttempts.eq_def]
  unfold fetchRetryDecision
  dsimp only
  by_cases hN : responseNeedsRetry (rs k).status = true
  · rw [if_pos hN, if_pos hN]
    cases hU : computeUnjitteredRetryDelayMillis last o (rs k).retryAfter with
    | nan => rfl
    | num u =>
      dsimp only
      by_cases hC : 0 < rem ∧ 0 < u
      · rw [dif_pos hC, if_pos hC]
      · rw [dif_neg hC, if_neg hC]
  · rw [if_neg hN, if_neg hN]

/-- `getLast?` of a cons with nonempty tail is `getLast?` of the tail. -/
theorem getLast?_cons_ne_nil {α : Type} (a : α) {l : List α} (h : l ≠ []) :
    (a :: l).getLast? = l.getLast? := by
  cases l with
  | nil => exact absurd rfl h
  | cons b t => rfl

/-- Every rational is at most the cast of `⌈·⌉.toNat`. -/
theorem rat_le_ceil_toNat (q : ℚ) : q ≤ ((Int.ceil q).toNat : ℚ) := by
  have h1 : q ≤ ((Int.ceil q : ℤ) : ℚ) := Int.le_ceil q
  have h2 : ((Int.ceil q : ℤ) : ℚ) ≤ (((Int.ceil q).toNat : ℤ) : ℚ) := by
    exact_mod_cast Int.self_le_toNat (Int.ceil q)
  calc q ≤ ((Int.ceil q : ℤ) : ℚ) := h1
    _ ≤ _ := by exact_mod_cast h2

/-- A budget of at most `n` bounds the number of transport invocations by
`n + 1`. -/
theorem rlFetchAttempts_length_le (o : RateLimitingHandlingOptions) (rs : ℕ → Resp)
    (rd : ℕ → ℚ) :
    ∀ (n : ℕ) (k : ℕ) (rem last : ℚ), rem ≤ (n : ℚ) →
      (rlFetchAttempts o rs rd k rem last).length ≤ n + 1 := by
  intro n
  induction n with
  | zero =>
    intro k rem last hle
    rw [rlFetchAttempts_step,
        fetchRetryDecision_none_of_nonpos last o (rs k) (rd k) (by exact_mod_cast hle)]
    simp
  | succ n ih =>
    intro k rem last hle
    push_cast at hle
    rw [rlFetchAttempts_step]
    cases hD : fetchRetryDecision rem last o (rs k) (rd k) with
    | none => simp
    | some info =>
      obtain ⟨-, -, u, -, -, hrem, -⟩ := fetchRetryDecision_some_inv hD
      have hrec : (rlFetchAttempts o rs rd (k + 1) info.remainingRetries info.retryDelayMillis).length ≤ n + 1 := by
        refine ih (k + 1) _ _ ?_
        rw [hrem]
        linarith
      simp only [List.length_cons]
      omega

/-- The last attempt of a run: its response is `rs (k + length - 1)` and
its decision is `none` (structurally, the loop ends exactly when the
decision is "no retry"), and `rlFetch` returns precisely that response. -/
theorem rlFetchAttempts_last (o : RateLimitingHandlingOptions) (rs : ℕ → Resp) (rd : ℕ → ℚ) :
    ∀ (n : ℕ) (k : ℕ) (rem last : ℚ), rem ≤ (n : ℚ) →
      (rlFetchAttempts o rs rd k rem last).getLast? =
        some (rs (k + (rlFetchAttempts o rs rd k rem last).length - 1), none) ∧
      rlFetch o rs rd k rem last = rs (k + (rlFetchAttempts o rs rd k rem last).length - 1) := by
  intro n
  induction n with
  | zero =>
    intro k rem last hle
    have hD : fetchRetryDecision rem last o (rs k) (rd k) = none :=
      fetchRetryDecision_none_of_nonpos last o (rs k) (rd k) (by exact_mod_cast hle)
    rw [rlFetchAttempts_step, hD, rlFetch_step, hD]
    simp
  | succ n ih =>
    intro k rem last hle
    push_cast at hle
    cases hD : fetchRetryDecision rem last o (rs k) (rd k) with
    | none =>
      rw [rlFetchAttempts_step, hD, rlFetch_step, hD]
      simp
    | some info =>
      obtain ⟨-, -, u, -, -, hrem, -⟩ := fetchRetryDecision_some_inv hD
      have hle2 : info.remainingRetries ≤ (n : ℚ) := by
        rw [hrem]; linarith
      obtain ⟨ih1, ih2⟩ := ih (k + 1) info.remainingRetries info.retryDelayMillis hle2
      have hne : rlFetchAttempts o rs rd (k + 1) info.remainingRetries info.retryDelayMillis ≠ [] := by
        intro hemp
        rw [hemp] at ih1
        simp at ih1
      have hlen : 1 ≤ (rlFetchAttempts o rs rd (k + 1) info.remainingRetries info.retryDelayMillis).length :=
        List.length_pos.mpr hne
      have harith : k + 1 + (rlFetchAttempts o rs rd (k + 1) info.remainingRetries info.retryDelayMillis).length - 1
          = k + ((rlFetchAttempts o rs rd (k + 1) info.remainingRetries info.retryDelayMillis).length + 1) - 1 := by
        omega
      constructor
      · rw [rlFetchAttempts_step, hD]
        dsimp only
        rw [getLast?_cons_ne_nil _ hne, ih1]
        simp only [List.length_cons]
        rw [harith]
      · rw [rlFetch_step, hD]
        dsimp only
        rw [ih2]
        conv_rhs => rw [rlFetchAttempts_step, hD]
        dsimp only
        simp only [List.length_cons]
        rw [harith]

/-! ### Concrete fixtures used by witnesses and counterexamples -/

/-- A transport that always answers 200 with no headers. -/
def ok200Responses : ℕ → Resp := fun _ => { status := 200, retryAfter := none }

/-- A transport that always answers 503 with no headers. -/
def always503Responses : ℕ → Resp := fun _ => { status := 503, retryAfter := none }

/-- A transport answering 429 with `Retry-After: 5` on the first attempt
and 200 afterwards. -/
def c1Responses : ℕ → Resp := fun k =>
  if k = 0 then { status := 429, retryAfter := some "5" }
  else { status := 200, retryAfter := none }

/-- `Math.random()` drawing 0 on every attempt (jitter multiplier 1). -/
def zeroDraws : ℕ → ℚ := fun _ => 0

/-! ### The claims -/

/-- C10: for every input state, options, response and value of the random
jitter draw, the standalone `DefaultRetryDetector.computeRetryInfo` and
the decision logic inlined in `RateLimitingFetch._fetch` (extracted as
`fetchRetryDecision`, which `rlFetch` follows step by step, see
`rlFetch_step`) return identical results — identical `remainingRetries`
and `retryDelayMillis` when they retry, `none` otherwise. -/
theorem c10_detector_equals_inline_decision
    (remainingRetries lastRetryDelayMillis : ℚ) (options : RateLimitingHandlingOptions)
    (response : Resp) (random : ℚ) :
    DefaultRetryDetector.computeRetryInfo remainingRetries lastRetryDelayMillis options response random =
      fetchRetryDecision remainingRetries lastRetryDelayMillis options response random := rfl

/-- C5: a `RetryInfo` is produced iff the response status is retryable AND
the remaining budget is positive AND the unjittered delay passes the JS
`> 0` test; in particular `Retry-After: 0` yields unjittered delay `0`
and the decision is "no retry" for every remaining budget. -/
theorem c5_retry_iff_budget_and_positive_delay :
    (∀ (rem last : ℚ) (o : RateLimitingHandlingOptions) (resp : Resp) (r : ℚ),
        (fetchRetryDecision rem last o resp r).isSome = true ↔
          (responseNeedsRetry resp.status = true ∧ 0 < rem ∧
           (computeUnjitteredRetryDelayMillis last o resp.retryAfter).isPos = true)) ∧
    (∀ (rem last : ℚ) (o : RateLimitingHandlingOptions) (r : ℚ),
        fetchRetryDecision rem last o { status := 429, retryAfter := some "0" } r = none) := by
  constructor
  · intro rem last o resp r
    unfold fetchRetryDecision
    by_cases hN : responseNeedsRetry resp.status = true
    · rw [if_pos hN]
      cases hU : computeUnjitteredRetryDelayMillis last o resp.retryAfter with
      | nan => simp [JNum.isPos, hN]
      | num u =>
        dsimp only
        by_cases hC : 0 < rem ∧ 0 < u
        · rw [if_pos hC]
          simp [JNum.isPos, hN, hC.1, hC.2]
        · rw [if_neg hC]
          simp only [Option.isSome_none, Bool.false_eq_true, false_iff, JNum.isPos,
            decide_eq_true_eq]
          intro hcontra
          exact hC ⟨hcontra.2.1, hcontra.2.2⟩
    · rw [if_neg hN]
      simp [hN]
  · intro rem last o r
    have hp : jsParseInt (jsTrim "0") = JNum.num 0 := by decide
    have hne0 : ("0" : String) ≠ "" := by decide
    have hc : computeUnjitteredRetryDelayMillis last o (some "0") = JNum.num 0 := by
      norm_num [computeUnjitteredRetryDelayMillis, headerTruthy, JNum.mulConst, hp, hne0]
    have hC : ¬(0 < rem ∧ 0 < (0:ℚ)) := fun hh => absurd hh.2 (lt_irrefl 0)
    unfold fetchRetryDecision
    dsimp only
    rw [if_pos (by decide : responseNeedsRetry (429:ℤ) = true), hc]
    dsimp only
    rw [if_neg hC]

/-- C9: a response whose status is not exactly 429, 500 or 503 is never
retried — the decision is "no retry" for every budget, every previous
delay and every random draw, and the orchestrator returns that response
immediately (the run is the single attempt). -/
theorem c9_non_retryable_passthrough (o : RateLimitingHandlingOptions)
    (rs : ℕ → Resp) (rd : ℕ → ℚ) (k : ℕ) (rem last r : ℚ)
    (h : ¬((rs k).status = tooManyRequestsStatusCode ∨
           (rs k).status = internalServerErrorStatusCode ∨
           (rs k).status = serviceUnavailableStatusCode)) :
    fetchRetryDecision rem last o (rs k) r = none ∧
    rlFetch o rs rd k rem last = rs k ∧
    rlFetchAttempts o rs rd k rem last = [((rs k), none)] := by
  push_neg at h
  have hN : responseNeedsRetry (rs k).status = false := by
    simp only [responseNeedsRetry, Bool.or_eq_false_iff, beq_eq_false_iff_ne, ne_eq]
    exact ⟨⟨h.1, h.2.1⟩, h.2.2⟩
  have hDall : ∀ r0 : ℚ, fetchRetryDecision rem last o (rs k) r0 = none := by
    intro r0
    unfold fetchRetryDecision
    rw [hN]
    simp
  refine ⟨hDall r, ?_, ?_⟩
  · rw [rlFetch_step, hDall (rd k)]
  · rw [rlFetchAttempts_step, hDall (rd k)]

/-- C9 witness: a 200 response with budget 5 passes straight through. -/
theorem c9_witness :
    fetchRetryDecision 5 0 nonUiContextRateLimitingHandlingOptionsDefaults (ok200Responses 0) 0 = none ∧
    rlFetch nonUiContextRateLimitingHandlingOptionsDefaults ok200Responses zeroDraws 0 5 0 = ok200Responses 0 ∧
    rlFetchAttempts nonUiContextRateLimitingHandlingOptionsDefaults ok200Responses zeroDraws 0 5 0 =
      [((ok200Responses 0), none)] :=
  c9_non_retryable_passthrough nonUiContextRateLimitingHandlingOptionsDefaults
    ok200Responses zeroDraws 0 5 0 0 (by decide)

/-- C7: `fetch` never raises — the embedded orchestrator is a total
function — and whenever the decision is "no retry" the run ends: the last
attempt of every run carries decision `none`, its response is the last
response received from the transport, and `rlFetch` returns exactly that
response. -/
theorem c7_returns_last_response (o : RateLimitingHandlingOptions)
    (rs : ℕ → Resp) (rd : ℕ → ℚ) (k : ℕ) (rem last : ℚ) :
    (rlFetchAttempts o rs rd k rem last).getLast? =
      some (rs (k + (rlFetchAttempts o rs rd k rem last).length - 1), none) ∧
    rlFetch o rs rd k rem last = rs (k + (rlFetchAttempts o rs rd k rem last).length - 1) :=
  rlFetchAttempts_last o rs rd (Int.ceil rem).toNat k rem last (rat_le_ceil_toNat rem)

/-- C4: with a valid (integer, non-negative) `maxRetries = n`, one `fetch`
performs at most `n + 1` transport invocations (and terminates — the
embedded loop is a total function); every issued `RetryInfo` carries
`remainingRetries` exactly one less than the budget it was computed from
(so successive values strictly decrease); and once the budget is
exhausted the decision is always "no retry", retryable status or not. -/
theorem c4_bounded_attempts_and_strict_budget_decrease
    (o : RateLimitingHandlingOptions) (rs : ℕ → Resp) (rd : ℕ → ℚ) (n : ℕ)
    (hn : o.maxRetries = (n : ℚ)) :
    (rlFetchAttempts o rs rd 0 o.maxRetries 0).length ≤ n + 1 ∧
    (∀ (rem last r : ℚ) (resp : Resp) (info : RetryInfo),
        fetchRetryDecision rem last o resp r = some info →
          info.remainingRetries = rem - 1 ∧ info.remainingRetries < rem) ∧
    (∀ (rem last r : ℚ) (resp : Resp), rem ≤ 0 →
        fetchRetryDecision rem last o resp r = none) := by
  refine ⟨?_, ?_, ?_⟩
  · exact rlFetchAttempts_length_le o rs rd n 0 o.maxRetries 0 (le_of_eq hn)
  · intro rem last r resp info h
    obtain ⟨-, -, u, -, -, hrem, -⟩ := fetchRetryDecision_some_inv h
    constructor
    · exact hrem
    · rw [hrem]; linarith
  · intro rem last r resp h
    exact fetchRetryDecision_none_of_nonpos last o resp r h

/-- C4 witness: the default options (`maxRetries = 2`) against an
always-503 transport. -/
theorem c4_witness :
    nonUiContextRateLimitingHandlingOptionsDefaults.maxRetries = ((2:ℕ) : ℚ) ∧
    ((rlFetchAttempts nonUiContextRateLimitingHandlingOptionsDefaults always503Responses zeroDraws 0
        nonUiContextRateLimitingHandlingOptionsDefaults.maxRetries 0).length ≤ 2 + 1 ∧
     (∀ (rem last r : ℚ) (resp : Resp) (info : RetryInfo),
        fetchRetryDecision rem last nonUiContextRateLimitingHandlingOptionsDefaults resp r = some info →
          info.remainingRetries = rem - 1 ∧ info.remainingRetries < rem) ∧
     (∀ (rem last r : ℚ) (resp : Resp), rem ≤ 0 →
        fetchRetryDecision rem last nonUiContextRateLimitingHandlingOptionsDefaults resp r = none)) :=
  ⟨by norm_num [nonUiContextRateLimitingHandlingOptionsDefaults],
   c4_bounded_attempts_and_strict_budget_decrease nonUiContextRateLimitingHandlingOptionsDefaults
     always503Responses zeroDraws 2
     (by norm_num [nonUiContextRateLimitingHandlingOptionsDefaults])⟩

/-- C6: whenever a `RetryInfo` is produced and the random draw lies in
`[0, 1)` (the range of `Math.random()`) with a validated
`maxJitterMultiplier ≥ 1`, the final delay is the unjittered delay times
the jitter multiplier `1 + random * (maxJitterMultiplier - 1) ∈
[1, maxJitterMultiplier]`; hence the delay is never below the unjittered
delay and never above `unjittered * maxJitterMultiplier`. -/
theorem c6_jitter_never_shortens (o : RateLimitingHandlingOptions)
    (rem last r : ℚ) (resp : Resp) (info : RetryInfo)
    (hr0 : 0 ≤ r) (hr1 : r < 1) (hj : 1 ≤ o.maxJitterMultiplier)
    (h : fetchRetryDecision rem last o resp r = some info) :
    ∃ u, computeUnjitteredRetryDelayMillis last o resp.retryAfter = JNum.num u ∧ 0 < u ∧
      info.retryDelayMillis = u * randomInRange r minJitterMultiplier o.maxJitterMultiplier ∧
      u ≤ info.retryDelayMillis ∧
      info.retryDelayMillis ≤ u * o.maxJitterMultiplier := by
  obtain ⟨-, -, u, hU, hupos, -, hdel⟩ := fetchRetryDecision_some_inv h
  refine ⟨u, hU, hupos, hdel, ?_, ?_⟩
  · rw [hdel]
    unfold randomInRange minJitterMultiplier
    nlinarith [mul_nonneg (mul_nonneg hupos.le hr0) (by linarith : (0:ℚ) ≤ o.maxJitterMultiplier - 1)]
  · rw [hdel]
    unfold randomInRange minJitterMultiplier
    nlinarith [mul_nonneg (mul_nonneg hupos.le (by linarith : (0:ℚ) ≤ 1 - r))
      (by linarith : (0:ℚ) ≤ o.maxJitterMultiplier - 1)]

/-- C6 witness: `Retry-After: 5`, draw `1/2`, default options: delay
`5750 ∈ [5000, 6500]`. -/
theorem c6_witness :
    (0:ℚ) ≤ 1/2 ∧ (1:ℚ)/2 < 1 ∧
    1 ≤ nonUiContextRateLimitingHandlingOptionsDefaults.maxJitterMultiplier ∧
    (∃ u, computeUnjitteredRetryDelayMillis 0 nonUiContextRateLimitingHandlingOptionsDefaults
        (Resp.mk 429 (some "5")).retryAfter = JNum.num u ∧ 0 < u ∧
      (RetryInfo.mk 1 5750).retryDelayMillis =
        u * randomInRange (1/2) minJitterMultiplier
          nonUiContextRateLimitingHandlingOptionsDefaults.maxJitterMultiplier ∧
      u ≤ (RetryInfo.mk 1 5750).retryDelayMillis ∧
      (RetryInfo.mk 1 5750).retryDelayMillis ≤
        u * nonUiContextRateLimitingHandlingOptionsDefaults.maxJitterMultiplier) :=
  ⟨by norm_num, by norm_num,
   by norm_num [nonUiContextRateLimitingHandlingOptionsDefaults],
   c6_jitter_never_shortens nonUiContextRateLimitingHandlingOptionsDefaults 2 0 (1/2)
     (Resp.mk 429 (some "5")) (RetryInfo.mk 1 5750) (by norm_num) (by norm_num)
     (by norm_num [nonUiContextRateLimitingHandlingOptionsDefaults])
     (by
       have h5 : jsParseInt (jsTrim "5") = JNum.num 5 := by decide
       norm_num [fetchRetryDecision, computeUnjitteredRetryDelayMillis, headerTruthy,
         responseNeedsRetry, tooManyRequestsStatusCode, internalServerErrorStatusCode,
         serviceUnavailableStatusCode, randomInRange, minJitterMultiplier, JNum.mulConst, h5,
         nonUiContextRateLimitingHandlingOptionsDefaults])⟩

/-- C8: construction fails exactly when `maxRetries < 0` or
`maxRetryDelayMillis ≤ 0` or `maxJitterMultiplier < 1` (the embedded
constructor is pure apart from the raised error); the default options
succeed, and each of the three spec'd invalid variants fails. -/
theorem c8_construction_validation :
    (∀ o : RateLimitingHandlingOptions,
        RateLimitingFetch.construct o = Except.ok o ↔
          ¬(o.maxRetries < 0 ∨ o.maxRetryDelayMillis ≤ 0 ∨ o.maxJitterMultiplier < 1)) ∧
    RateLimitingFetch.construct nonUiContextRateLimitingHandlingOptionsDefaults =
      Except.ok nonUiContextRateLimitingHandlingOptionsDefaults ∧
    (RateLimitingFetch.construct
      { nonUiContextRateLimitingHandlingOptionsDefaults with maxRetries := -1 }).isOk = false ∧
    (RateLimitingFetch.construct
      { nonUiContextRateLimitingHandlingOptionsDefaults with maxRetryDelayMillis := 0 }).isOk = false ∧
    (RateLimitingFetch.construct
      { nonUiContextRateLimitingHandlingOptionsDefaults with maxJitterMultiplier := 9/10 }).isOk = false := by
  refine ⟨?_, ?_, ?_, ?_, ?_⟩
  · intro o
    unfold RateLimitingFetch.construct validateOptions minJitterMultiplier
    by_cases h1 : o.maxRetries < 0
    · rw [if_pos h1]
      simp [h1]
    · rw [if_neg h1]
      by_cases h2 : o.maxRetryDelayMillis ≤ 0
      · rw [if_pos h2]
        simp [h1, h2]
      · rw [if_neg h2]
        by_cases h3 : o.maxJitterMultiplier < 1
        · rw [if_pos h3]
          simp [h1, h2, h3]
        · rw [if_neg h3]
          simp [h1, h2, h3]
  · norm_num [RateLimitingFetch.construct, validateOptions, minJitterMultiplier,
      nonUiContextRateLimitingHandlingOptionsDefaults]
  · norm_num [RateLimitingFetch.construct, validateOptions, minJitterMultiplier,
      nonUiContextRateLimitingHandlingOptionsDefaults, Except.isOk, Except.toBool]
  · norm_num [RateLimitingFetch.construct, validateOptions, minJitterMultiplier,
      nonUiContextRateLimitingHandlingOptionsDefaults, Except.isOk, Except.toBool]
  · norm_num [RateLimitingFetch.construct, validateOptions, minJitterMultiplier,
      nonUiContextRateLimitingHandlingOptionsDefaults, Except.isOk, Except.toBool]

/-- C1 (code bug): the claim "attempt n+1 is never issued before attempt
n's computed delay has fully elapsed" fails on the source: at
RateLimitingFetch.ts line 106 `this._delay(retryDelayMillis)` is called
WITHOUT `await`, so only the start of the timer is sequenced into the
main async chain and `_fetch` recurses immediately (line 111).  On the
concrete run below — default options, first response 429 with
`Retry-After: 5`, jitter draw 0, computed delay 5000 ms — the main-chain
trace issues attempt 1 directly after starting the 5000 ms timer, and no
`delayElapsed` event precedes (or ever enters) it. -/
theorem c1_retry_issued_without_awaiting_delay :
    fetchEventTrace nonUiContextRateLimitingHandlingOptionsDefaults c1Responses zeroDraws 0
        nonUiContextRateLimitingHandlingOptionsDefaults.maxRetries 0 =
      [Ev.attempt 0, Ev.delayStarted 5000, Ev.logRetry 5000, Ev.attempt 1] ∧
    Ev.delayElapsed 5000 ∉
      fetchEventTrace nonUiContextRateLimitingHandlingOptionsDefaults c1Responses zeroDraws 0
        nonUiContextRateLimitingHandlingOptionsDefaults.maxRetries 0 := by
  have h5 : jsParseInt (jsTrim "5") = JNum.num 5 := by decide
  have hd0 : fetchRetryDecision nonUiContextRateLimitingHandlingOptionsDefaults.maxRetries 0
      nonUiContextRateLimitingHandlingOptionsDefaults (c1Responses 0) (zeroDraws 0) =
      some (RetryInfo.mk 1 5000) := by
    norm_num [fetchRetryDecision, computeUnjitteredRetryDelayMillis, headerTruthy,
      responseNeedsRetry, tooManyRequestsStatusCode, internalServerErrorStatusCode,
      serviceUnavailableStatusCode, randomInRange, minJitterMultiplier, JNum.mulConst, h5,
      c1Responses, zeroDraws, nonUiContextRateLimitingHandlingOptionsDefaults]
  have hd1 : fetchRetryDecision (1:ℚ) 5000 nonUiContextRateLimitingHandlingOptionsDefaults
      (c1Responses 1) (zeroDraws 1) = none := by
    norm_num [fetchRetryDecision, responseNeedsRetry, tooManyRequestsStatusCode,
      internalServerErrorStatusCode, serviceUnavailableStatusCode, c1Responses]
  have hatt : rlFetchAttempts nonUiContextRateLimitingHandlingOptionsDefaults c1Responses
      zeroDraws 0 nonUiContextRateLimitingHandlingOptionsDefaults.maxRetries 0 =
      [(c1Responses 0, some (RetryInfo.mk 1 5000)), (c1Responses 1, none)] := by
    rw [rlFetchAttempts_step, hd0]
    dsimp only
    rw [show (0 + 1 : ℕ) = 1 from rfl]
    rw [rlFetchAttempts_step, hd1]
  have htr : fetchEventTrace nonUiContextRateLimitingHandlingOptionsDefaults c1Responses
      zeroDraws 0 nonUiContextRateLimitingHandlingOptionsDefaults.maxRetries 0 =
      [Ev.attempt 0, Ev.delayStarted 5000, Ev.logRetry 5000, Ev.attempt 1] := by
    unfold fetchEventTrace
    rw [hatt]
    rfl
  refine ⟨htr, ?_⟩
  rw [htr]
  decide

/-- C2 counterexample: a retryable response carrying the malformed header
`Retry-After: later`, with budget 2 and backoff state 2000 ms available
(the claim's backoff branch would give `min(2 * 2000, 60000) = 4000 > 0`
and hence a retry), is NOT retried: JS `parseInt` returns `NaN` without
throwing, no warning is logged (the `catch` at lines 87–89 is
unreachable), the backoff branch is not consulted, and the `NaN` delay
fails the `> 0` test, ending retrying — contradicting "falls through to
the backoff branch" and "does not by itself end retrying". -/
theorem c2_counterexample_malformed_header_ends_retrying :
    headerTruthy (some "later") = true ∧
    jsParseInt (jsTrim "later") = JNum.nan ∧
    fetchRetryDecision 2 2000 nonUiContextRateLimitingHandlingOptionsDefaults
      { status := 429, retryAfter := some "later" } 0 = none := by
  refine ⟨by decide, by decide, ?_⟩
  have hp : jsParseInt (jsTrim "later") = JNum.nan := by decide
  have hne : ("later" : String) ≠ "" := by decide
  norm_num [fetchRetryDecision, computeUnjitteredRetryDelayMillis, headerTruthy, hne,
    responseNeedsRetry, tooManyRequestsStatusCode, internalServerErrorStatusCode,
    serviceUnavailableStatusCode, JNum.mulConst, hp,
    nonUiContextRateLimitingHandlingOptionsDefaults]

/-- C2 amended: for every response (retryable or not) whose `Retry-After`
header is truthy but unparseable, the unjittered delay is `NaN` (JS
`parseInt` returns `NaN` rather than throwing — nothing is propagated to
the caller and the embedded decision is total), the backoff branch is
never consulted, and the decision is "no retry" for every budget and
backoff state: the parse failure by itself ENDS retrying and the response
is returned. -/
theorem c2_amended_malformed_header_stops_retrying
    (rem last r : ℚ) (o : RateLimitingHandlingOptions) (resp : Resp)
    (hs : headerTruthy resp.retryAfter = true)
    (hp : jsParseInt (jsTrim (resp.retryAfter.getD "")) = JNum.nan) :
    computeUnjitteredRetryDelayMillis last o resp.retryAfter = JNum.nan ∧
    fetchRetryDecision rem last o resp r = none := by
  have hcu : computeUnjitteredRetryDelayMillis last o resp.retryAfter = JNum.nan := by
    unfold computeUnjitteredRetryDelayMillis
    rw [if_pos hs, hp]
    rfl
  refine ⟨hcu, ?_⟩
  unfold fetchRetryDecision
  rw [hcu]
  dsimp only
  exact ite_self none

/-- C2 amended witness: the malformed header `Retry-After: later` on a
429 with budget 2 and backoff state 2000 ms. -/
theorem c2_amended_witness :
    headerTruthy (Resp.mk 429 (some "later")).retryAfter = true ∧
    jsParseInt (jsTrim ((Resp.mk 429 (some "later")).retryAfter.getD "")) = JNum.nan ∧
    (computeUnjitteredRetryDelayMillis 2000 nonUiContextRateLimitingHandlingOptionsDefaults
        (Resp.mk 429 (some "later")).retryAfter = JNum.nan ∧
     fetchRetryDecision 2 2000 nonUiContextRateLimitingHandlingOptionsDefaults
        (Resp.mk 429 (some "later")) 0 = none) :=
  ⟨by decide, by decide,
   c2_amended_malformed_header_stops_retrying 2 2000 0
     nonUiContextRateLimitingHandlingOptionsDefaults (Resp.mk 429 (some "later"))
     (by decide) (by decide)⟩

/-- The unjittered delay exactly as claim C3 words it (stated from the
spec for comparison with the code's `computeUnjitteredRetryDelayMillis`):
`1000 * parsed` when a parseable `Retry-After` header is present;
OTHERWISE `min(backoffMultiplier * lastRetryDelayMillis,
maxRetryDelayMillis)` when `lastRetryDelayMillis > 0`, else
`initialRetryDelayMillis`. -/
def claimC3Unjittered (lastRetryDelayMillis : ℚ) (o : RateLimitingHandlingOptions)
    (retryAfterHeader : Option String) : ℚ :=
  match retryAfterHeader with
  | some h =>
    match jsParseInt (jsTrim h) with
    | JNum.num n => 1000 * n
    | JNum.nan =>
      if 0 < lastRetryDelayMillis then
        min (o.backoffMultiplier * lastRetryDelayMillis) o.maxRetryDelayMillis
      else o.initialRetryDelayMillis
  | none =>
    if 0 < lastRetryDelayMillis then
      min (o.backoffMultiplier * lastRetryDelayMillis) o.maxRetryDelayMillis
    else o.initialRetryDelayMillis

/-- C3 counterexample: with the present-but-unparseable header
`Retry-After: soon` and `lastRetryDelayMillis = 2000`, the claim's
formula gives the backoff value `min(2 * 2000, 60000) = 4000`, but the
code computes `NaN` (and consequently does not retry) — the claim's
"otherwise" branch does not match the code when a truthy unparseable
header is present. -/
theorem c3_counterexample_unparseable_header_is_not_backoff :
    claimC3Unjittered 2000 nonUiContextRateLimitingHandlingOptionsDefaults (some "soon") = 4000 ∧
    computeUnjitteredRetryDelayMillis 2000 nonUiContextRateLimitingHandlingOptionsDefaults
      (some "soon") = JNum.nan ∧
    fetchRetryDecision 2 2000 nonUiContextRateLimitingHandlingOptionsDefaults
      { status := 429, retryAfter := some "soon" } 0 = none := by
  have hp : jsParseInt (jsTrim "soon") = JNum.nan := by decide
  have hne : ("soon" : String) ≠ "" := by decide
  refine ⟨?_, ?_, ?_⟩
  · norm_num [claimC3Unjittered, hp, min_def, nonUiContextRateLimitingHandlingOptionsDefaults]
  · norm_num [computeUnjitteredRetryDelayMillis, headerTruthy, JNum.mulConst, hp, hne]
  · norm_num [fetchRetryDecision, computeUnjitteredRetryDelayMillis, headerTruthy, hne,
      responseNeedsRetry, tooManyRequestsStatusCode, internalServerErrorStatusCode,
      serviceUnavailableStatusCode, JNum.mulConst, hp,
      nonUiContextRateLimitingHandlingOptionsDefaults]

/-- C3 amended: the code's unjittered delay agrees with the claim's
formula in the two cases the code distinguishes — a truthy AND parseable
header gives `1000 * parsed` (regardless of `lastRetryDelayMillis`), and
a falsy header (absent or empty) gives the backoff/initial branch; a
truthy unparseable header instead yields `NaN` (see the C3
counterexample), which is the only divergence from the claim as stated. -/
theorem c3_amended_unjittered_delay (last : ℚ) (o : RateLimitingHandlingOptions)
    (hdr : Option String) :
    (∀ (s : String) (n : ℚ), hdr = some s → headerTruthy (some s) = true →
        jsParseInt (jsTrim s) = JNum.num n →
        computeUnjitteredRetryDelayMillis last o hdr = JNum.num (1000 * n)) ∧
    (headerTruthy hdr = false →
        computeUnjitteredRetryDelayMillis last o hdr =
          JNum.num (if 0 < last then min (o.backoffMultiplier * last) o.maxRetryDelayMillis
                    else o.initialRetryDelayMillis)) := by
  constructor
  · intro s n hhdr hs hp
    subst hhdr
    unfold computeUnjitteredRetryDelayMillis
    rw [if_pos hs]
    dsimp only [Option.getD]
    rw [hp]
    rfl
  · intro hf
    unfold computeUnjitteredRetryDelayMillis
    rw [hf]
    simp only [Bool.false_eq_true, if_false]
    by_cases hl : 0 < last
    · rw [if_pos hl, if_pos hl]
    · rw [if_neg hl, if_neg hl]

/-- C3 amended witness: `Retry-After: 7` with `lastRetryDelayMillis =
2000` gives `7000` ms — the header takes precedence over backoff. -/
theorem c3_amended_witness :
    (some "7" : Option String) = some "7" ∧
    headerTruthy (some "7") = true ∧
    jsParseInt (jsTrim "7") = JNum.num 7 ∧
    computeUnjitteredRetryDelayMillis 2000 nonUiContextRateLimitingHandlingOptionsDefaults
      (some "7") = JNum.num (1000 * 7) :=
  ⟨rfl, by decide, by decide,
   (c3_amended_unjittered_delay 2000 nonUiContextRateLimitingHandlingOptionsDefaults
      (some "7")).1 "7" 7 rfl (by decide) (by decide)⟩
